import Mathlib

/-!
Shallow embedding of the cart / checkout / order core of the storefront
repository (controllers `orderController.js`, the cart routes, the Product
and Order mongoose schemas).  Monetary values are modelled as rationals,
stock counters as integers (a Mongo `$inc` can drive them negative),
cart quantities as naturals.  Each definition is translated from the
JavaScript source; database reads (`findById` / `findOne` / `populate`)
are modelled as lookups in a `List Product` standing for the product
collection.
-/

deriving instance DecidableEq for Except

namespace Shop

/-- Rounding to two decimals exactly as the source computes it:
`Math.round(x * 100) / 100`.  JavaScript `Math.round` is `⌊x + 1/2⌋`,
which is Mathlib's `round` on `ℚ`. -/
def round2 (x : ℚ) : ℚ := ((round (x * 100) : ℤ) : ℚ) / 100

/-- JavaScript `a || b` applied to an optional numeric field: both an
absent field and the value `0` are falsy and fall through to `b`.
Used for `variant.price || product.price` and `coupon.discount || 10`. -/
def jsOr (a : Option ℚ) (b : ℚ) : ℚ :=
  match a with
  | some x => if x = 0 then b else x
  | none => b

/-- One entry of `productSchema.variants`: a purchasable (size, color)
combination with its own stock and optional price override. -/
structure Variant where
  size : String
  color : String
  stock : Int
  price : Option ℚ
deriving DecidableEq

/-- The fields of a Product document that the cart/checkout core reads or
writes.  `id` stands for Mongo's `_id`. -/
structure Product where
  id : Nat
  name : String
  price : ℚ
  variants : List Variant
  totalStock : Int
  isActive : Bool
  soldCount : Int
deriving DecidableEq

/-- One cart line, the shape shared by the guest (session) cart and the
user-document cart: `{product, size, color, quantity}`. -/
structure CartItem where
  productId : Nat
  size : String
  color : String
  quantity : Nat
deriving DecidableEq

/-- Sum of the stocks of a variant list (`variants.reduce((t, v) => t + v.stock, 0)`). -/
def sumStocks (vs : List Variant) : Int := (vs.map Variant.stock).sum

/-- The `productSchema.pre('save')` hook: recomputes the denormalized
`totalStock` from the variants.  (The same hook also recomputes `slug`
from `name`; the slug is not part of this model.) -/
def productPreSave (p : Product) : Product :=
  { p with totalStock := sumStocks p.variants }

/-- Lookup by `_id`, as done by `populate('cart.product')` /
`User.findById(...).populate(...)`. -/
def findProduct (db : List Product) (pid : Nat) : Option Product :=
  db.find? (fun p => p.id == pid)

/-- Lookup `Product.findOne({_id: productId, isActive: true})`. -/
def findActiveProduct (db : List Product) (pid : Nat) : Option Product :=
  db.find? (fun p => p.id == pid && p.isActive)

/-- The variant predicate used everywhere:
`v.size === size && v.color === color`. -/
def variantMatches (size color : String) (v : Variant) : Bool :=
  v.size == size && v.color == color

/-- The cart-line predicate used by `findIndex` / `find` / `filter` in the
cart routes: `item.product === productId && item.size === size && item.color === color`. -/
def lineMatches (pid : Nat) (size color : String) (it : CartItem) : Bool :=
  it.productId == pid && it.size == size && it.color == color

/-- First cart line matching the (productId, size, color) triple -/
def findLine (cart : List CartItem) (pid : Nat) (size color : String) : Option CartItem :=
  cart.find? (lineMatches pid size color)

/-- Add `q` to the quantity of the first line matching the triple
(the `user.cart[existingItemIndex].quantity = newQuantity` assignment). -/
def bumpLine (pid : Nat) (size color : String) (q : Nat) : List CartItem → List CartItem
  | [] => []
  | it :: rest =>
    if lineMatches pid size color it then { it with quantity := it.quantity + q } :: rest
    else it :: bumpLine pid size color q rest

/-- Number of lines of a cart matching the triple. -/
def countLines (cart : List CartItem) (pid : Nat) (size color : String) : Nat :=
  (cart.filter (lineMatches pid size color)).length

/-- The (productId, size, color) key of a cart line. -/
def lineKey (it : CartItem) : Nat × String × String := (it.productId, it.size, it.color)

/-- A cart is key-unique when no two lines share a (productId, size, color) triple. -/
def UniqueCart (cart : List CartItem) : Prop := (cart.map lineKey).Nodup

instance : DecidablePred UniqueCart := fun cart =>
  inferInstanceAs (Decidable (cart.map lineKey).Nodup)

/-- Error outcomes of the cart `POST /add` route. -/
inductive CartErr
  | validationFailed
  | productNotFound
  | variantUnavailable
  | insufficientStock
deriving DecidableEq

/-- The `POST /add` cart route (the user-cart and session-cart branches run
the same algorithm on the respective line list).  Returns the new cart
together with the `cartCount` written to the session
(`req.session.cartCount = cart.length`). -/
def addToCart (db : List Product) (cart : List CartItem) (pid : Nat) (qty : Nat)
    (size color : String) : Except CartErr (List CartItem × Nat) :=
  if qty < 1 then .error .validationFailed
  else
    match findActiveProduct db pid with
    | none => .error .productNotFound
    | some product =>
      match product.variants.find? (variantMatches size color) with
      | none => .error .variantUnavailable
      | some variant =>
        if variant.stock < (qty : Int) then .error .insufficientStock
        else
          match findLine cart pid size color with
          | some existing =>
            if variant.stock < ((existing.quantity + qty : Nat) : Int) then
              .error .insufficientStock
            else
              let cart' := bumpLine pid size color qty cart
              .ok (cart', cart'.length)
          | none =>
            let cart' := cart ++ [⟨pid, size, color, qty⟩]
            .ok (cart', cart'.length)

/-- The `DELETE /remove` cart route: filter out every line matching the
triple, then write `cartCount = cart.length`. -/
def removeFromCart (cart : List CartItem) (pid : Nat) (size color : String) :
    List CartItem × Nat :=
  let cart' := cart.filter (fun it => !(lineMatches pid size color it))
  (cart', cart'.length)

/-- The `DELETE /clear` cart route: both branches replace the cart with
the empty list unconditionally — ignoring its prior contents — and write
`cartCount = 0`. -/
def clearCart (cart : List CartItem) : List CartItem × Nat := ([], 0)

/-- Merging one guest line into the user cart inside the `POST /transfer`
loop: bump the quantity of an existing matching line, else push the line. -/
def mergeLine (userCart : List CartItem) (si : CartItem) : List CartItem :=
  match findLine userCart si.productId si.size si.color with
  | some _ => bumpLine si.productId si.size si.color si.quantity userCart
  | none => userCart ++ [si]

/-- The merge loop of `POST /transfer` over the whole session cart. -/
def transferCart (userCart sessionCart : List CartItem) : List CartItem :=
  sessionCart.foldl mergeLine userCart

/-- State written back by `POST /transfer`. -/
structure TransferResult where
  userCart : List CartItem
  sessionCart : List CartItem
  cartCount : Nat
deriving DecidableEq

/-- The `POST /transfer` route for a non-empty session cart: merge every
guest line into the user cart, clear the session cart, write
`cartCount = user.cart.length`.  (For an empty session cart the route
returns early and touches no state.)  The route never consults the
product collection: no stock is re-validated. -/
def transferEndpoint (userCart sessionCart : List CartItem) : TransferResult :=
  let merged := transferCart userCart sessionCart
  ⟨merged, [], merged.length⟩

/-- One element of the `items` array returned by the cart view
(`GET /` on the cart router).  `availableStock` is only set on the
out-of-stock branch, hence optional. -/
structure ViewItem where
  productId : Nat
  size : String
  color : String
  quantity : Nat
  itemPrice : ℚ
  itemTotal : ℚ
  inStock : Bool
  availableStock : Option Int
deriving DecidableEq

/-- Resolution of a single cart line against the product collection:
`some` only when the product exists and is active. -/
def resolveLine (db : List Product) (it : CartItem) : Option (CartItem × Product) :=
  match findProduct db it.productId with
  | some p => if p.isActive then some (it, p) else none
  | none => none

/-- Product resolution of the cart view: the user branch keeps
`item.product && item.product.isActive`, the guest branch queries only
active products and filters unresolved lines — both silently drop a line
whose product is missing or inactive. -/
def resolveCart (db : List Product) (cart : List CartItem) : List (CartItem × Product) :=
  cart.filterMap (resolveLine db)

/-- The valuation step of the cart view loop: an existing variant with
`stock >= quantity` yields an in-stock item contributing its item total;
otherwise the line is flagged `inStock = false` with `itemTotal = 0` and
contributes nothing to the subtotal. -/
def valuateItem (entry : CartItem × Product) : ViewItem × ℚ :=
  let item := entry.1
  let product := entry.2
  match product.variants.find? (variantMatches item.size item.color) with
  | some variant =>
    if (item.quantity : Int) ≤ variant.stock then
      let itemPrice := jsOr variant.price product.price
      let itemTotal := itemPrice * (item.quantity : ℚ)
      (⟨item.productId, item.size, item.color, item.quantity,
        itemPrice, itemTotal, true, none⟩, itemTotal)
    else
      (⟨item.productId, item.size, item.color, item.quantity,
        product.price, 0, false, some variant.stock⟩, 0)
  | none =>
    (⟨item.productId, item.size, item.color, item.quantity,
      product.price, 0, false, some 0⟩, 0)

/-- The `validItems` list built by the cart view loop. -/
def viewItems (db : List Product) (cart : List CartItem) : List ViewItem :=
  (resolveCart db cart).map (fun e => (valuateItem e).1)

/-- The raw (unrounded) subtotal accumulated by the cart view loop. -/
def viewRawSubtotal (db : List Product) (cart : List CartItem) : ℚ :=
  ((resolveCart db cart).map (fun e => (valuateItem e).2)).sum

/-- The JSON body returned by the cart view; the four monetary fields are
each rounded once for the response. -/
structure CartView where
  items : List ViewItem
  count : Nat
  subtotal : ℚ
  tax : ℚ
  shipping : ℚ
  total : ℚ
deriving DecidableEq

/-- The cart view route `GET /`: resolve, valuate, price.  The tax used in
the total is the unrounded `subtotal * 0.1`; all response fields are
rounded at the end (`Math.round(x * 100) / 100`). -/
def viewCart (db : List Product) (cart : List CartItem) : CartView :=
  let validItems := viewItems db cart
  let subtotal := viewRawSubtotal db cart
  let tax := subtotal * (1/10)
  let shipping : ℚ := if subtotal > 100 then 0 else 10
  let total := subtotal + tax + shipping
  { items := validItems
    count := validItems.length
    subtotal := round2 subtotal
    tax := round2 tax
    shipping := round2 shipping
    total := round2 total }

/-- The payment methods accepted by the order-creation validator. -/
inductive PayMethod
  | credit_card
  | debit_card
  | paypal
  | stripe
  | cod
deriving DecidableEq

/-- One element of the order's `items` array: the point-in-time snapshot of
a purchased line. -/
structure OrderItem where
  productId : Nat
  name : String
  price : ℚ
  quantity : Nat
  size : String
  color : String
  total : ℚ
deriving DecidableEq

/-- The order's `pricing` snapshot. -/
structure Pricing where
  subtotal : ℚ
  tax : ℚ
  shipping : ℚ
  discount : ℚ
  total : ℚ
deriving DecidableEq

/-- The optional coupon in the order-creation request body. -/
structure Coupon where
  code : String
  type : String
  discount : Option ℚ
deriving DecidableEq

/-- The fields of the Order document that the claims are about. -/
structure Order where
  items : List OrderItem
  payMethod : PayMethod
  paymentStatus : String
  pricing : Pricing
  status : String
deriving DecidableEq

/-- Failure outcomes of `POST /` on the order router. -/
inductive CheckoutErr
  | emptyCart
  | productUnavailable
  | insufficientStock
deriving DecidableEq

/-- The validation loop of order creation (`for (const cartItem of user.cart)`):
a missing or inactive product aborts with the product-unavailable response,
a missing variant or `variant.stock < cartItem.quantity` aborts with the
insufficient-stock response; otherwise the line's price snapshot is pushed. -/
def validateItems (db : List Product) : List CartItem → Except CheckoutErr (List OrderItem)
  | [] => .ok []
  | cartItem :: rest =>
    match findProduct db cartItem.productId with
    | none => .error .productUnavailable
    | some product =>
      if !product.isActive then .error .productUnavailable
      else
        match product.variants.find? (variantMatches cartItem.size cartItem.color) with
        | none => .error .insufficientStock
        | some variant =>
          if variant.stock < (cartItem.quantity : Int) then .error .insufficientStock
          else
            let itemPrice := jsOr variant.price product.price
            let itemTotal := itemPrice * (cartItem.quantity : ℚ)
            (validateItems db rest).map
              (fun items =>
                ⟨cartItem.productId, product.name, itemPrice, cartItem.quantity,
                 cartItem.size, cartItem.color, itemTotal⟩ :: items)

/-- The subtotal accumulated by the validation loop (`subtotal += itemTotal`). -/
def orderSubtotal (items : List OrderItem) : ℚ := (items.map OrderItem.total).sum

/-- The coupon branch of order creation: only the code `SAVE10` is
recognized; `percentage` coupons give 10% of the subtotal rounded, other
coupons give `coupon.discount || 10` capped at the subtotal. -/
def couponDiscount (coupon : Option Coupon) (subtotal : ℚ) : ℚ :=
  match coupon with
  | some c =>
    if c.code = "SAVE10" then
      if c.type = "percentage" then round2 (subtotal * (1/10))
      else min (jsOr c.discount 10) subtotal
    else 0
  | none => 0

/-- The pricing computation of order creation:
`tax = Math.round(subtotal * 0.1 * 100) / 100`, free shipping strictly over
100, `total = subtotal + tax + shipping - discount` with no further rounding. -/
def checkoutPricing (subtotal : ℚ) (coupon : Option Coupon) : Pricing :=
  let tax := round2 (subtotal * (1/10))
  let shipping : ℚ := if subtotal > 100 then 0 else 10
  let discount := couponDiscount coupon subtotal
  ⟨subtotal, tax, shipping, discount, subtotal + tax + shipping - discount⟩

/-- Decrement the stock of the first variant matching (size, color) by `q`
(the positional `variants.$.stock` update). -/
def decFirstMatching (size color : String) (q : Nat) : List Variant → List Variant
  | [] => []
  | v :: rest =>
    if variantMatches size color v then { v with stock := v.stock - q } :: rest
    else v :: decFirstMatching size color q rest

/-- The per-item stock write of order creation,
`Product.findOneAndUpdate({_id, 'variants.size', 'variants.color'}, {$inc: ...})`:
the filter matches on id and on a variant with the purchased size and color
— it carries no stock condition — and the update decrements that variant's
stock and increments `soldCount`.  Being a direct update it bypasses the
save middleware, so `totalStock` is not recomputed. -/
def decrementStock (item : OrderItem) : List Product → List Product
  | [] => []
  | p :: rest =>
    if p.id == item.productId && p.variants.any (variantMatches item.size item.color) then
      { p with
        variants := decFirstMatching item.size item.color item.quantity p.variants
        soldCount := p.soldCount + item.quantity } :: rest
    else p :: decrementStock item rest

/-- The order-creation route `POST /` after request-shape validation:
empty-cart guard, validation loop, pricing, order construction (including
`paymentInfo.status = method === 'cod' ? 'pending' : 'completed'`), then
the per-item stock decrements.  A validation failure returns before the
order is saved and before any stock write. -/
def checkout (db : List Product) (cart : List CartItem) (method : PayMethod)
    (coupon : Option Coupon) : Except CheckoutErr (Order × List Product) :=
  if cart.isEmpty then .error .emptyCart
  else
    match validateItems db cart with
    | .error e => .error e
    | .ok items =>
      let subtotal := orderSubtotal items
      let order : Order :=
        { items := items
          payMethod := method
          paymentStatus := if method = .cod then "pending" else "completed"
          pricing := checkoutPricing subtotal coupon
          status := "pending" }
      let db' := items.foldl (fun d it => decrementStock it d) db
      .ok (order, db')

/-- The product collection after the order-creation request: unchanged when
the request fails, the decremented collection when it succeeds. -/
def checkoutDbAfter (db : List Product) (cart : List CartItem) (method : PayMethod)
    (coupon : Option Coupon) : List Product :=
  match checkout db cart method coupon with
  | .ok (_, db') => db'
  | .error _ => db

/-- The Order document persisted by the order-creation request, if any. -/
def checkoutOrderOf (db : List Product) (cart : List CartItem) (method : PayMethod)
    (coupon : Option Coupon) : Option Order :=
  match checkout db cart method coupon with
  | .ok (o, _) => some o
  | .error _ => none

/-- Condition under which a cart line fails the order-creation validation
loop: the product is missing or inactive, or the variant is missing, or
its stock is below the requested quantity. -/
def lineFailsB (db : List Product) (ci : CartItem) : Bool :=
  match findProduct db ci.productId with
  | none => true
  | some p =>
    if !p.isActive then true
    else
      match p.variants.find? (variantMatches ci.size ci.color) with
      | none => true
      | some v => v.stock < (ci.quantity : Int)

/-- The status enumeration of the `PUT /:orderNumber/status` validator and
of `orderSchema.status`. -/
def orderStatusEnum : List String :=
  ["pending", "confirmed", "processing", "shipped",
   "delivered", "cancelled", "returned", "refunded"]

/-- One `statusHistory` entry (the schema also stamps a date, which is real
time and not modelled). -/
structure StatusEntry where
  status : String
  note : String
deriving DecidableEq

/-- The mutable status part of an Order document. -/
structure OrderStatusState where
  status : String
  statusHistory : List StatusEntry
deriving DecidableEq

/-- The schema method `orderSchema.methods.updateStatus`: set the status and
push a history entry.  No check against the current status is performed. -/
def updateStatus (o : OrderStatusState) (newStatus note : String) : OrderStatusState :=
  { o with
    status := newStatus
    statusHistory := o.statusHistory ++ [⟨newStatus, note⟩] }

/-- The `PUT /:orderNumber/status` route: the `isIn` validator rejects a
status outside the enumeration with a validation-failed response before
the order is touched; otherwise `order.updateStatus(status, note)` runs. -/
def updateStatusEndpoint (o : OrderStatusState) (newStatus note : String) :
    Except String OrderStatusState :=
  if orderStatusEnum.contains newStatus then .ok (updateStatus o newStatus note)
  else .error "Validation failed"

/-- The order's status state after the `PUT /:orderNumber/status` request:
unchanged when the request is rejected. -/
def statusEndpointState (o : OrderStatusState) (newStatus note : String) : OrderStatusState :=
  match updateStatusEndpoint o newStatus note with
  | .ok o' => o'
  | .error _ => o

/-- The (productId, size, color) key of a returned cart-view item. -/
def viewKey (v : ViewItem) : Nat × String × String := (v.productId, v.size, v.color)

/-- The in-stock verdict the cart view reaches for a resolved line:
`variant && variant.stock >= item.quantity`. -/
def inStockB (p : Product) (it : CartItem) : Bool :=
  match p.variants.find? (variantMatches it.size it.color) with
  | some v => (it.quantity : Int) ≤ v.stock
  | none => false

/-- Quantity of the user-cart line matching a guest line's key before a
transfer (0 when absent). -/
def priorQty (u : List CartItem) (si : CartItem) : Nat :=
  match findLine u si.productId si.size si.color with
  | some it => it.quantity
  | none => 0

/-! Concrete inputs used by witnesses and counterexamples. -/

/-- One active product, price 29.99, a single M/Black variant with stock 55
(the scenario of the spec's §8). -/
def demoDb : List Product :=
  [⟨1, "Classic Tee", 2999/100, [⟨"M", "Black", 55, none⟩], 55, true, 0⟩]

/-- A cart holding 2 units of the demo variant. -/
def demoCart : List CartItem := [⟨1, "M", "Black", 2⟩]

/-- The order the demo checkout produces. -/
def demoOrder : Order :=
  { items := [⟨1, "Classic Tee", 2999/100, 2, "M", "Black", 2999/50⟩]
    payMethod := .cod
    paymentStatus := "pending"
    pricing := ⟨2999/50, 6, 10, 0, 3799/50⟩
    status := "pending" }

/-- The product collection after the demo checkout: stock 53, soldCount 2,
`totalStock` left stale at 55. -/
def demoDbAfter : List Product :=
  [⟨1, "Classic Tee", 2999/100, [⟨"M", "Black", 53, none⟩], 55, true, 2⟩]

/-- A one-product collection with a single M/Black variant holding `s`
units of stock. -/
def oneVariantDb (s : Int) : List Product :=
  [⟨1, "Tee", 20, [⟨"M", "Black", s, none⟩], s, true, 0⟩]

/-- The order line produced by buying `q` units of the `oneVariantDb`
variant at its base price 20. -/
def buyItem (q : Nat) : OrderItem := ⟨1, "Tee", 20, q, "M", "Black", 20 * (q : ℚ)⟩

/-- A cart holding `q` units of the `oneVariantDb` variant. -/
def buyCart (q : Nat) : List CartItem := [⟨1, "M", "Black", q⟩]

/-- An active product priced at 0.015 (a price with a fractional cent),
variant S/Red with stock 10. -/
def centDb : List Product := [⟨3, "Pin", 3/200, [⟨"S", "Red", 10, none⟩], 10, true, 0⟩]

/-- A cart holding 1 unit of the `centDb` variant. -/
def centCart : List CartItem := [⟨3, "S", "Red", 1⟩]

/-- An inactive product that still has a well-stocked variant. -/
def inactiveDb : List Product := [⟨4, "Gone", 10, [⟨"M", "Black", 5, none⟩], 5, false, 0⟩]

/-- A cart holding 1 unit of the inactive product's variant. -/
def inactiveCart : List CartItem := [⟨4, "M", "Black", 1⟩]

/-- A guest cart line requesting 5 units of a variant with zero stock. -/
def oversizedLine : CartItem := ⟨1, "M", "Black", 5⟩

/-! Helper lemmas. -/

/-- The demo checkout paid by cod succeeds with the expected order and
stock write (the spec's §8 scenario: subtotal 59.98, tax 6.00, shipping
10, total 75.98, stock 55 → 53). -/
theorem demo_checkout :
    checkout demoDb demoCart .cod none = .ok (demoOrder, demoDbAfter) := by
  simp [checkout, validateItems, demoDb, demoCart, findProduct, variantMatches, jsOr,
    orderSubtotal, checkoutPricing, couponDiscount, round2, decrementStock, decFirstMatching,
    demoOrder, demoDbAfter, Except.map]
  norm_num [round_eq]

/-- The demo checkout paid by paypal succeeds with the same pricing and a
"completed" payment status. -/
theorem demo_checkout_paypal :
    checkout demoDb demoCart .paypal none =
      .ok (Order.mk demoOrder.items .paypal "completed" demoOrder.pricing demoOrder.status,
           demoDbAfter) := by
  simp [checkout, validateItems, demoDb, demoCart, findProduct, variantMatches, jsOr,
    orderSubtotal, checkoutPricing, couponDiscount, round2, decrementStock, decFirstMatching,
    demoOrder, demoDbAfter, Except.map]
  norm_num [round_eq]

/-- Successful checkout determines the order and the written collection. -/
theorem checkout_ok_inv {db : List Product} {cart : List CartItem} {method : PayMethod}
    {coupon : Option Coupon} {ord : Order} {db' : List Product}
    (h : checkout db cart method coupon = .ok (ord, db')) :
    ∃ items, validateItems db cart = .ok items ∧
      ord = { items := items
              payMethod := method
              paymentStatus := if method = .cod then "pending" else "completed"
              pricing := checkoutPricing (orderSubtotal items) coupon
              status := "pending" } ∧
      db' = items.foldl (fun d it => decrementStock it d) db := by
  unfold checkout at h
  split at h
  · exact Except.noConfusion h
  · split at h
    · exact Except.noConfusion h
    · rename_i items hv
      injection h with h
      injection h with h₁ h₂
      exact ⟨items, hv, h₁.symm, h₂.symm⟩

/-- Changing only a line's quantity does not change whether it matches a triple. -/
theorem lineMatches_quantity (pid : Nat) (size color : String) (it : CartItem) (q : Nat) :
    lineMatches pid size color { it with quantity := q } = lineMatches pid size color it := rfl

/-- Every line matches its own key. -/
theorem lineMatches_self (it : CartItem) :
    lineMatches it.productId it.size it.color it = true := by
  simp [lineMatches]

/-- Matching a triple is the same as having that triple as key. -/
theorem lineMatches_key {pid : Nat} {size color : String} {it : CartItem} :
    lineMatches pid size color it = true ↔ lineKey it = (pid, size, color) := by
  simp [lineMatches, lineKey, Prod.ext_iff, and_assoc]

/-- Matching as a decidable equality on keys. -/
theorem lineMatches_eq_decide_key (pid : Nat) (size color : String) (it : CartItem) :
    lineMatches pid size color it = decide (lineKey it = (pid, size, color)) := by
  rw [Bool.eq_iff_iff]
  simp [lineMatches_key]

/-- Bumping a quantity never changes the cart's length. -/
theorem bumpLine_length (pid : Nat) (size color : String) (q : Nat) (cart : List CartItem) :
    (bumpLine pid size color q cart).length = cart.length := by
  induction cart with
  | nil => rfl
  | cons it rest ih =>
    unfold bumpLine
    split <;> simp [ih]

/-- Bumping a quantity changes no line's key. -/
theorem bumpLine_map_lineKey (pid : Nat) (size color : String) (q : Nat) (cart : List CartItem) :
    (bumpLine pid size color q cart).map lineKey = cart.map lineKey := by
  induction cart with
  | nil => rfl
  | cons it rest ih =>
    unfold bumpLine
    split <;> simp [ih, lineKey]

/-- Line counting as key counting in the key list. -/
theorem countLines_eq_count_key (cart : List CartItem) (pid : Nat) (size color : String) :
    countLines cart pid size color =
      (cart.map lineKey).countP (fun k => decide (k = (pid, size, color))) := by
  rw [countLines, ← List.countP_eq_length_filter, List.countP_map]
  congr 1
  funext it
  simp only [Function.comp]
  exact lineMatches_eq_decide_key pid size color it

/-- A duplicate-free list holds any value at most once. -/
theorem nodup_countP_decide_le_one {α : Type} [DecidableEq α] {l : List α}
    (h : l.Nodup) (a : α) :
    l.countP (fun k => decide (k = a)) ≤ 1 := by
  induction l with
  | nil => simp
  | cons x xs ih =>
    rw [List.countP_cons]
    rcases List.nodup_cons.mp h with ⟨hx, hxs⟩
    by_cases hxa : x = a
    · subst hxa
      have hz : xs.countP (fun k => decide (k = x)) = 0 := by
        rw [List.countP_eq_zero]
        intro b hb
        simp only [decide_eq_true_eq]
        intro hbx
        exact hx (hbx ▸ hb)
      simp [hz]
    · simp [hxa, ih hxs]

/-- A key-unique cart has at most one line per triple. -/
theorem countLines_le_one_of_unique {cart : List CartItem} (hu : UniqueCart cart)
    (pid : Nat) (size color : String) :
    countLines cart pid size color ≤ 1 := by
  rw [countLines_eq_count_key]
  exact nodup_countP_decide_le_one hu (pid, size, color)

/-- Absence of a matching line means no line matches. -/
theorem findLine_none_iff {cart : List CartItem} {pid : Nat} {size color : String} :
    findLine cart pid size color = none ↔
      ∀ it ∈ cart, lineMatches pid size color it = false := by
  simp [findLine, List.find?_eq_none]

/-- A found line carries the searched key and belongs to the cart. -/
theorem findLine_some_key {cart : List CartItem} {pid : Nat} {size color : String}
    {it : CartItem} (h : findLine cart pid size color = some it) :
    it.productId = pid ∧ it.size = size ∧ it.color = color ∧ it ∈ cart := by
  have hm := List.find?_some h
  have hmem := List.mem_of_find?_eq_some h
  simp [lineMatches, and_assoc] at hm
  exact ⟨hm.1, hm.2.1, hm.2.2, hmem⟩

/-- Searching after appending one line. -/
theorem findLine_append_single (cart : List CartItem) (x : CartItem) (pid : Nat)
    (size color : String) :
    findLine (cart ++ [x]) pid size color =
      (findLine cart pid size color).or
        (if lineMatches pid size color x then some x else none) := by
  rw [findLine, List.find?_append]
  congr 1
  rw [List.find?_cons]
  cases h : lineMatches pid size color x <;> simp [h]

/-- Absence of a matching line means a zero line count. -/
theorem countLines_eq_zero_of_none {cart : List CartItem} {pid : Nat} {size color : String}
    (h : findLine cart pid size color = none) :
    countLines cart pid size color = 0 := by
  rw [countLines, List.length_eq_zero]
  rw [List.filter_eq_nil_iff]
  intro it hit
  simp [findLine_none_iff.mp h it hit]

/-- Searching the bumped triple finds the bumped line. -/
theorem findLine_bumpLine_self (pid : Nat) (size color : String) (q : Nat)
    (cart : List CartItem) :
    findLine (bumpLine pid size color q cart) pid size color =
      (findLine cart pid size color).map
        (fun it => { it with quantity := it.quantity + q }) := by
  induction cart with
  | nil => rfl
  | cons it rest ih =>
    by_cases h : lineMatches pid size color it = true
    · unfold bumpLine
      rw [if_pos h]
      rw [findLine, List.find?_cons_of_pos _ (by rw [lineMatches_quantity]; exact h)]
      rw [findLine, List.find?_cons_of_pos _ h]
      rfl
    · unfold bumpLine
      rw [if_neg h]
      rw [findLine, List.find?_cons_of_neg _ (by simpa using h)]
      rw [findLine, List.find?_cons_of_neg _ (by simpa using h)]
      exact ih

/-- Searching a different triple is unaffected by a bump. -/
theorem findLine_bumpLine_other {pid : Nat} {size color : String} {pid' : Nat}
    {size' color' : String} {q : Nat} {cart : List CartItem}
    (hne : (pid', size', color') ≠ (pid, size, color)) :
    findLine (bumpLine pid size color q cart) pid' size' color' =
      findLine cart pid' size' color' := by
  induction cart with
  | nil => rfl
  | cons it rest ih =>
    by_cases h : lineMatches pid size color it = true
    · have hno : lineMatches pid' size' color' it = false := by
        rw [← Bool.not_eq_true]
        intro hyes
        exact hne ((lineMatches_key.mp hyes).symm.trans (lineMatches_key.mp h))
      unfold bumpLine
      rw [if_pos h]
      rw [findLine, List.find?_cons_of_neg _ (by simp [lineMatches_quantity, hno])]
      rw [findLine, List.find?_cons_of_neg _ (by simp [hno])]
    · unfold bumpLine
      rw [if_neg h]
      by_cases h' : lineMatches pid' size' color' it = true
      · rw [findLine, List.find?_cons_of_pos _ h', findLine, List.find?_cons_of_pos _ h']
      · rw [findLine, List.find?_cons_of_neg _ (by simpa using h'),
          findLine, List.find?_cons_of_neg _ (by simpa using h')]
        exact ih

/-- Appending a line whose triple is absent preserves key-uniqueness. -/
theorem uniqueCart_append_of_not_found {cart : List CartItem} {x : CartItem}
    (hu : UniqueCart cart) (hnone : findLine cart x.productId x.size x.color = none) :
    UniqueCart (cart ++ [x]) := by
  unfold UniqueCart at *
  rw [List.map_append]
  rw [List.nodup_append]
  refine ⟨hu, List.nodup_singleton _, ?_⟩
  intro k hk hk'
  simp at hk'
  obtain ⟨it, hit, hkey⟩ := List.mem_map.mp hk
  have := findLine_none_iff.mp hnone it hit
  rw [← Bool.not_eq_true, lineMatches_key] at this
  exact this (by rw [hkey, hk']; rfl)

/-! Inversion of the cart add route. -/

/-- Adding a triple that is absent from the cart appends exactly one new
line and reports one more line. -/
theorem addToCart_ok_new {db : List Product} {cart : List CartItem} {pid qty : Nat}
    {size color : String} {res : List CartItem × Nat}
    (hnone : findLine cart pid size color = none)
    (h : addToCart db cart pid qty size color = .ok res) :
    res = (cart ++ [⟨pid, size, color, qty⟩], cart.length + 1) := by
  unfold addToCart at h
  split at h
  · exact Except.noConfusion h
  · split at h
    · exact Except.noConfusion h
    · split at h
      · exact Except.noConfusion h
      · split at h
        · exact Except.noConfusion h
        · rw [hnone] at h
          simp only at h
          injection h with h
          simp [← h]

/-- Adding a triple that is already in the cart bumps that line in place
and reports an unchanged number of lines. -/
theorem addToCart_ok_existing {db : List Product} {cart : List CartItem} {pid qty : Nat}
    {size color : String} {res : List CartItem × Nat} {it : CartItem}
    (hsome : findLine cart pid size color = some it)
    (h : addToCart db cart pid qty size color = .ok res) :
    res = (bumpLine pid size color qty cart, cart.length) := by
  unfold addToCart at h
  split at h
  · exact Except.noConfusion h
  · split at h
    · exact Except.noConfusion h
    · split at h
      · exact Except.noConfusion h
      · split at h
        · exact Except.noConfusion h
        · rw [hsome] at h
          simp only at h
          split at h
          · exact Except.noConfusion h
          · injection h with h
            rw [← h, bumpLine_length]

/-! C5: repeated add merges into one line. -/

/-- C5: on a key-unique cart with no line for the triple, two successful
adds of the same (productId, size, color) leave exactly one line for that
triple, holding the sum of the two added quantities; key-uniqueness is
preserved and the cart grows by exactly one line, never two. -/
theorem c5_add_merges (db : List Product) (cart : List CartItem) (pid : Nat)
    (size color : String) (q₁ q₂ : Nat) (cart₁ cart₂ : List CartItem) (n₁ n₂ : Nat)
    (hu : UniqueCart cart) (habs : findLine cart pid size color = none)
    (h₁ : addToCart db cart pid q₁ size color = .ok (cart₁, n₁))
    (h₂ : addToCart db cart₁ pid q₂ size color = .ok (cart₂, n₂)) :
    countLines cart₂ pid size color = 1 ∧
    findLine cart₂ pid size color = some ⟨pid, size, color, q₁ + q₂⟩ ∧
    UniqueCart cart₂ ∧
    cart₂.length = cart.length + 1 := by
  have e₁ := addToCart_ok_new habs h₁
  rw [Prod.mk.injEq] at e₁
  obtain ⟨hc₁, -⟩ := e₁
  have hfind₁ : findLine cart₁ pid size color = some ⟨pid, size, color, q₁⟩ := by
    rw [hc₁, findLine_append_single, habs]
    simp [lineMatches]
  have e₂ := addToCart_ok_existing hfind₁ h₂
  rw [Prod.mk.injEq] at e₂
  obtain ⟨hc₂, -⟩ := e₂
  have hu₁ : UniqueCart cart₁ := by
    rw [hc₁]
    exact uniqueCart_append_of_not_found hu habs
  have hkeys₂ : cart₂.map lineKey = cart₁.map lineKey := by
    rw [hc₂]
    exact bumpLine_map_lineKey pid size color q₂ cart₁
  have hfind₂ : findLine cart₂ pid size color = some ⟨pid, size, color, q₁ + q₂⟩ := by
    rw [hc₂, findLine_bumpLine_self, hfind₁]
    rfl
  refine ⟨?_, hfind₂, ?_, ?_⟩
  · have hone : countLines cart₁ pid size color = 1 := by
      rw [hc₁, countLines, List.filter_append]
      have hz : cart.filter (lineMatches pid size color) = [] := by
        rw [List.filter_eq_nil_iff]
        intro it hit
        simp [findLine_none_iff.mp habs it hit]
      rw [hz]
      simp [lineMatches]
    rw [countLines_eq_count_key, hkeys₂, ← countLines_eq_count_key]
    exact hone
  · unfold UniqueCart
    rw [hkeys₂]
    exact hu₁
  · rw [hc₂, bumpLine_length, hc₁]
    simp

/-- C5 witness: adding 2 and then 3 units of the same variant to an empty
cart yields the single line with quantity 5. -/
theorem c5_add_merges_witness :
    countLines [⟨1, "M", "Black", 5⟩] 1 "M" "Black" = 1 ∧
    findLine [⟨1, "M", "Black", 5⟩] 1 "M" "Black" = some ⟨1, "M", "Black", 2 + 3⟩ ∧
    UniqueCart [⟨1, "M", "Black", 5⟩] ∧
    ([⟨1, "M", "Black", 5⟩] : List CartItem).length = ([] : List CartItem).length + 1 :=
  c5_add_merges (oneVariantDb 10) [] 1 "M" "Black" 2 3
    [⟨1, "M", "Black", 2⟩] [⟨1, "M", "Black", 5⟩] 1 1
    (by decide) (by decide) (by decide) (by decide)

/-! Lemmas about the transfer merge loop. -/

/-- Merging one guest line preserves key-uniqueness. -/
theorem mergeLine_unique {u : List CartItem} {si : CartItem} (hu : UniqueCart u) :
    UniqueCart (mergeLine u si) := by
  unfold mergeLine
  cases hfl : findLine u si.productId si.size si.color with
  | none => exact uniqueCart_append_of_not_found hu hfl
  | some it =>
    unfold UniqueCart
    rw [bumpLine_map_lineKey]
    exact hu

/-- Merging one guest line leaves exactly one line for its key, holding the
prior user quantity plus the guest quantity. -/
theorem mergeLine_findLine_self (u : List CartItem) (si : CartItem) :
    findLine (mergeLine u si) si.productId si.size si.color =
      some ⟨si.productId, si.size, si.color, priorQty u si + si.quantity⟩ := by
  unfold mergeLine priorQty
  cases hfl : findLine u si.productId si.size si.color with
  | none =>
    rw [findLine_append_single, hfl]
    simp [lineMatches_self]
  | some it =>
    rw [findLine_bumpLine_self, hfl]
    obtain ⟨hp, hs, hc, -⟩ := findLine_some_key hfl
    cases it
    simp_all

/-- Merging one guest line does not disturb lines with other keys. -/
theorem mergeLine_findLine_other {u : List CartItem} {si : CartItem} {pid : Nat}
    {size color : String} (hne : (pid, size, color) ≠ lineKey si) :
    findLine (mergeLine u si) pid size color = findLine u pid size color := by
  unfold mergeLine
  cases hfl : findLine u si.productId si.size si.color with
  | none =>
    rw [findLine_append_single]
    have hno : lineMatches pid size color si = false := by
      rw [← Bool.not_eq_true]
      intro hyes
      exact hne ((lineMatches_key.mp hyes).symm)
    simp [hno, Option.or_none]
  | some it => exact findLine_bumpLine_other hne

/-- Merging a guest line with another key leaves the prior quantity of a
key unchanged. -/
theorem priorQty_mergeLine_other {u : List CartItem} {hd si : CartItem}
    (hne : (si.productId, si.size, si.color) ≠ lineKey hd) :
    priorQty (mergeLine u hd) si = priorQty u si := by
  unfold priorQty
  rw [mergeLine_findLine_other hne]

/-- The transfer merge loop preserves key-uniqueness of the user cart. -/
theorem transferCart_unique {s u : List CartItem} (hu : UniqueCart u) :
    UniqueCart (transferCart u s) := by
  induction s generalizing u with
  | nil => exact hu
  | cons si rest ih => exact ih (mergeLine_unique hu)

/-- The transfer merge loop does not disturb keys absent from the session cart. -/
theorem transferCart_findLine_not_mem {u s : List CartItem} {pid : Nat}
    {size color : String} (hnot : (pid, size, color) ∉ s.map lineKey) :
    findLine (transferCart u s) pid size color = findLine u pid size color := by
  induction s generalizing u with
  | nil => rfl
  | cons si rest ih =>
    simp only [List.map_cons, List.mem_cons, not_or] at hnot
    show findLine (transferCart (mergeLine u si) rest) pid size color = _
    rw [ih hnot.2]
    exact mergeLine_findLine_other hnot.1

/-- After the transfer merge loop, every guest line's key holds the prior
user quantity plus the guest quantity. -/
theorem transferCart_findLine_mem {u s : List CartItem} (hu : UniqueCart u)
    (hs : UniqueCart s) :
    ∀ si ∈ s, findLine (transferCart u s) si.productId si.size si.color =
      some ⟨si.productId, si.size, si.color, priorQty u si + si.quantity⟩ := by
  induction s generalizing u with
  | nil => intro si h; cases h
  | cons hd rest ih =>
    intro si hsi
    have hsplit : lineKey hd ∉ rest.map lineKey ∧ UniqueCart rest := by
      unfold UniqueCart at hs
      rw [List.map_cons, List.nodup_cons] at hs
      exact hs
    rcases List.mem_cons.mp hsi with rfl | hmem
    · show findLine (transferCart (mergeLine u si) rest) si.productId si.size si.color = _
      have hkey : (si.productId, si.size, si.color) ∉ rest.map lineKey := hsplit.1
      rw [transferCart_findLine_not_mem hkey]
      exact mergeLine_findLine_self u si
    · show findLine (transferCart (mergeLine u hd) rest) si.productId si.size si.color = _
      have hne : (si.productId, si.size, si.color) ≠ lineKey hd := by
        intro he
        exact hsplit.1 (he ▸ List.mem_map.mpr ⟨si, hmem, rfl⟩)
      rw [ih (mergeLine_unique hu) hsplit.2 si hmem, priorQty_mergeLine_other hne]

/-! C7: transfer-on-login. -/

/-- C7 counterexample: a guest line requesting 5 units of a variant whose
current stock is 0 — a line that fails checkout validation — is still
merged into the user cart by the transfer route, which never consults the
product collection: no stock re-validation happens and no line is dropped. -/
theorem c7_transfer_no_revalidation_counterexample :
    lineFailsB (oneVariantDb 0) oversizedLine = true ∧
    transferEndpoint [] [oversizedLine] = ⟨[oversizedLine], [], 1⟩ := by
  constructor
  · decide
  · rfl

/-- C7 amended: the transfer merges every guest line into the user cart by
its (product, size, color) key with quantities summed, clears the session
cart, and writes the line count; but it performs no stock re-validation
and drops nothing — every guest line ends up merged, whatever the stock. -/
theorem c7_transfer_merges_all (userCart sessionCart : List CartItem)
    (hu : UniqueCart userCart) (hs : UniqueCart sessionCart) :
    (transferEndpoint userCart sessionCart).sessionCart = [] ∧
    (transferEndpoint userCart sessionCart).cartCount =
      (transferEndpoint userCart sessionCart).userCart.length ∧
    UniqueCart (transferEndpoint userCart sessionCart).userCart ∧
    ∀ si ∈ sessionCart,
      findLine (transferEndpoint userCart sessionCart).userCart
          si.productId si.size si.color =
        some ⟨si.productId, si.size, si.color, priorQty userCart si + si.quantity⟩ :=
  ⟨rfl, rfl, transferCart_unique hu, transferCart_findLine_mem hu hs⟩

/-- C7 witness: transferring a guest cart with one line matching a user
line and one new line sums the first and appends the second. -/
theorem c7_transfer_merges_all_witness :
    (transferEndpoint [⟨1, "M", "Black", 1⟩] [⟨1, "M", "Black", 2⟩, ⟨2, "S", "Red", 3⟩]).sessionCart
        = [] ∧
    (transferEndpoint [⟨1, "M", "Black", 1⟩] [⟨1, "M", "Black", 2⟩, ⟨2, "S", "Red", 3⟩]).cartCount =
      (transferEndpoint [⟨1, "M", "Black", 1⟩]
        [⟨1, "M", "Black", 2⟩, ⟨2, "S", "Red", 3⟩]).userCart.length ∧
    UniqueCart (transferEndpoint [⟨1, "M", "Black", 1⟩]
        [⟨1, "M", "Black", 2⟩, ⟨2, "S", "Red", 3⟩]).userCart ∧
    ∀ si ∈ [⟨1, "M", "Black", 2⟩, (⟨2, "S", "Red", 3⟩ : CartItem)],
      findLine (transferEndpoint [⟨1, "M", "Black", 1⟩]
            [⟨1, "M", "Black", 2⟩, ⟨2, "S", "Red", 3⟩]).userCart
          si.productId si.size si.color =
        some ⟨si.productId, si.size, si.color,
          priorQty [⟨1, "M", "Black", 1⟩] si + si.quantity⟩ :=
  c7_transfer_merges_all [⟨1, "M", "Black", 1⟩] [⟨1, "M", "Black", 2⟩, ⟨2, "S", "Red", 3⟩]
    (by decide) (by decide)

/-! Lemmas about the cart view. -/

/-- A resolved line keeps its cart item and points at its found, active
product. -/
theorem resolveLine_some_inv {db : List Product} {it : CartItem} {e : CartItem × Product}
    (h : resolveLine db it = some e) :
    e.1 = it ∧ findProduct db it.productId = some e.2 ∧ e.2.isActive = true := by
  unfold resolveLine at h
  split at h
  · rename_i p hp
    split at h
    · rename_i hact
      injection h with h
      subst h
      exact ⟨rfl, hp, hact⟩
    · exact Option.noConfusion h
  · exact Option.noConfusion h

/-- The valuation step keeps the line's key and quantity, flags stock
availability exactly as `variant && variant.stock >= quantity`, gives a
flagged line a zero item total, and contributes its item total to the
subtotal. -/
theorem valuateItem_fields (e : CartItem × Product) :
    viewKey (valuateItem e).1 = lineKey e.1 ∧
    (valuateItem e).1.quantity = e.1.quantity ∧
    (valuateItem e).1.inStock = inStockB e.2 e.1 ∧
    ((valuateItem e).1.inStock = false → (valuateItem e).1.itemTotal = 0) ∧
    (valuateItem e).2 = (valuateItem e).1.itemTotal := by
  obtain ⟨it, p⟩ := e
  unfold valuateItem inStockB viewKey lineKey
  cases hv : p.variants.find? (variantMatches it.size it.color) with
  | none => simp [hv]
  | some v =>
    by_cases hst : (it.quantity : Int) ≤ v.stock
    · simp [hv, hst]
    · simp [hv, hst]

/-- When every line resolves, resolution drops nothing. -/
theorem resolveCart_length_of_isSome {db : List Product} {cart : List CartItem}
    (h : ∀ it ∈ cart, (resolveLine db it).isSome) :
    (resolveCart db cart).length = cart.length := by
  induction cart with
  | nil => rfl
  | cons it rest ih =>
    obtain ⟨e, he⟩ := Option.isSome_iff_exists.mp (h it (by simp))
    rw [resolveCart, List.filterMap_cons, he]
    simp only [List.length_cons]
    rw [← resolveCart]
    rw [ih (fun x hx => h x (by simp [hx]))]

/-! C6: cart view surfacing of unavailable lines. -/

/-- C6 counterexample: a cart line whose product is inactive is silently
excluded from the cart view — the response's item list is empty rather
than containing the line flagged `inStock = false`. -/
theorem c6_view_drops_unresolved_counterexample :
    (findProduct inactiveDb 4).map Product.isActive = some false ∧
    inactiveCart.length = 1 ∧
    (viewCart inactiveDb inactiveCart).items = [] ∧
    (viewCart inactiveDb inactiveCart).count = 0 := by
  refine ⟨by decide, rfl, ?_, ?_⟩ <;>
    simp [viewCart, viewItems, resolveCart, resolveLine, inactiveDb, inactiveCart, findProduct]

/-- C6 amended: a line whose variant no longer matches or no longer covers
the requested quantity is returned flagged `inStock = false` with a zero
item total and zero contribution to the subtotal; but a line whose product
is gone or inactive is silently excluded from the returned list, not
returned flagged. -/
theorem c6_view_availability (db : List Product) (cart : List CartItem)
    (hu : UniqueCart cart) :
    (∀ it ∈ cart, resolveLine db it = none →
        ∀ v ∈ viewItems db cart, viewKey v ≠ lineKey it) ∧
    (∀ it ∈ cart, ∀ p : Product, resolveLine db it = some (it, p) →
        ∃ v ∈ viewItems db cart, viewKey v = lineKey it ∧ v.quantity = it.quantity ∧
          v.inStock = inStockB p it ∧ (v.inStock = false → v.itemTotal = 0)) ∧
    viewRawSubtotal db cart = ((viewItems db cart).map ViewItem.itemTotal).sum := by
  refine ⟨?_, ?_, ?_⟩
  · intro it hit hnone v hv hkey
    obtain ⟨e, he, hve⟩ := List.mem_map.mp hv
    obtain ⟨a, ha, hra⟩ := List.mem_filterMap.mp he
    obtain ⟨ha1, -, -⟩ := resolveLine_some_inv hra
    have hk : lineKey a = lineKey it := by
      have hvk := (valuateItem_fields e).1
      rw [hve] at hvk
      rw [← ha1, ← hvk, hkey]
    have haeq : a = it := List.inj_on_of_nodup_map hu ha hit hk
    rw [haeq, hnone] at hra
    exact Option.noConfusion hra
  · intro it hit p hres
    refine ⟨(valuateItem (it, p)).1,
      List.mem_map.mpr ⟨(it, p), List.mem_filterMap.mpr ⟨it, hit, hres⟩, rfl⟩, ?_⟩
    have hf := valuateItem_fields (it, p)
    exact ⟨hf.1, hf.2.1, hf.2.2.1, hf.2.2.2.1⟩
  · rw [viewRawSubtotal, viewItems, List.map_map]
    congr 1
    congr 1
    funext e
    simp only [Function.comp]
    exact (valuateItem_fields e).2.2.2.2

/-- C6 witness: the amended statement on a singleton cart whose line
requests more than the current stock. -/
theorem c6_view_availability_witness :
    (∀ it ∈ [oversizedLine], resolveLine (oneVariantDb 1) it = none →
        ∀ v ∈ viewItems (oneVariantDb 1) [oversizedLine], viewKey v ≠ lineKey it) ∧
    (∀ it ∈ [oversizedLine], ∀ p : Product, resolveLine (oneVariantDb 1) it = some (it, p) →
        ∃ v ∈ viewItems (oneVariantDb 1) [oversizedLine],
          viewKey v = lineKey it ∧ v.quantity = it.quantity ∧
          v.inStock = inStockB p it ∧ (v.inStock = false → v.itemTotal = 0)) ∧
    viewRawSubtotal (oneVariantDb 1) [oversizedLine] =
      ((viewItems (oneVariantDb 1) [oversizedLine]).map ViewItem.itemTotal).sum :=
  c6_view_availability (oneVariantDb 1) [oversizedLine] (by decide)

/-! C10: the surfaced cart count. -/

/-- C10 counterexample: on a cart holding one distinct line whose product
is inactive, the view response's `count` is 0, not the cart's distinct
line count 1 — the count only covers the lines surfaced in the response. -/
theorem c10_view_count_counterexample :
    inactiveCart.length = 1 ∧
    (viewCart inactiveDb inactiveCart).count = 0 := by
  refine ⟨rfl, ?_⟩
  simp [viewCart, viewItems, resolveCart, resolveLine, inactiveDb, inactiveCart, findProduct]

/-- C10 amended: the cart view's `count` is the number of returned lines
— which equals the cart's distinct line count whenever every line's
product resolves, but excludes dropped lines otherwise — (and the
number of cart lines whenever every line resolves); the `cartCount`
written after an add is the number of lines — one more than before when
the triple was absent, whatever quantity was added, and unchanged when the
add merged into an existing line; remove, clear and transfer likewise
report the number of lines of the stored cart, never a quantity sum. -/
theorem c10_cart_count :
    (∀ (db : List Product) (cart : List CartItem),
        (viewCart db cart).count = (viewCart db cart).items.length) ∧
    (∀ (db : List Product) (cart : List CartItem),
        (∀ it ∈ cart, (resolveLine db it).isSome) →
        (viewCart db cart).count = cart.length) ∧
    (∀ (db : List Product) (cart : List CartItem) (pid qty : Nat) (size color : String)
        (res : List CartItem × Nat),
        findLine cart pid size color = none →
        addToCart db cart pid qty size color = .ok res →
        res.2 = cart.length + 1) ∧
    (∀ (db : List Product) (cart : List CartItem) (pid qty : Nat) (size color : String)
        (res : List CartItem × Nat) (it : CartItem),
        findLine cart pid size color = some it →
        addToCart db cart pid qty size color = .ok res →
        res.2 = cart.length) ∧
    (∀ (cart : List CartItem) (pid : Nat) (size color : String),
        (removeFromCart cart pid size color).2 =
          (removeFromCart cart pid size color).1.length) ∧
    (∀ cart : List CartItem,
        (clearCart cart).1 = [] ∧ (clearCart cart).2 = (clearCart cart).1.length) ∧
    (∀ userCart sessionCart : List CartItem,
        (transferEndpoint userCart sessionCart).cartCount =
          (transferEndpoint userCart sessionCart).userCart.length) := by
  refine ⟨fun db cart => rfl, ?_, ?_, ?_, fun cart pid size color => rfl,
    fun cart => ⟨rfl, rfl⟩, fun userCart sessionCart => rfl⟩
  · intro db cart h
    show (viewItems db cart).length = cart.length
    rw [viewItems, List.length_map]
    exact resolveCart_length_of_isSome h
  · intro db cart pid qty size color res hnone hok
    rw [addToCart_ok_new hnone hok]
  · intro db cart pid qty size color res it hsome hok
    rw [addToCart_ok_existing hsome hok]

/-- C10 witness: adding 3 units of an absent variant raises the count from
0 to 1, adding 3 more units to the now-existing line leaves it at 1, and a
fully resolving cart's view count equals its line count. -/
theorem c10_cart_count_witness :
    (viewCart (oneVariantDb 5) (buyCart 1)).count = (buyCart 1).length ∧
    (([⟨1, "M", "Black", 3⟩] : List CartItem), 1).2 = ([] : List CartItem).length + 1 ∧
    (([⟨1, "M", "Black", 4⟩] : List CartItem), 1).2 =
      ([⟨1, "M", "Black", 1⟩] : List CartItem).length :=
  ⟨c10_cart_count.2.1 (oneVariantDb 5) (buyCart 1) (by decide),
   c10_cart_count.2.2.1 (oneVariantDb 5) [] 1 3 "M" "Black"
     ([⟨1, "M", "Black", 3⟩], 1) (by decide) (by decide),
   c10_cart_count.2.2.2.1 (oneVariantDb 5) [⟨1, "M", "Black", 1⟩] 1 3 "M" "Black"
     ([⟨1, "M", "Black", 4⟩], 1) ⟨1, "M", "Black", 1⟩ (by decide) (by decide)⟩

/-! C2: conditional stock decrement at checkout. -/

/-- C2 counterexample: two checkouts of 1 unit are both validated against a
read state holding a single unit (stock 1 ≥ quantity 1), and the two stock
writes are both applied, leaving the stored stock at −1: the decrement is
not conditional on remaining stock, and checkout drives stock below zero. -/
theorem c2_race_counterexample :
    validateItems (oneVariantDb 1) (buyCart 1) = .ok [buyItem 1] ∧
    ((decrementStock (buyItem 1) (decrementStock (buyItem 1) (oneVariantDb 1))).map
        (fun p => p.variants.map Variant.stock)) = [[-1]] := by
  refine ⟨?_, ?_⟩
  · simp [validateItems, oneVariantDb, buyCart, buyItem, findProduct, variantMatches,
      jsOr, Except.map]
  · simp [decrementStock, decFirstMatching, oneVariantDb, buyItem, variantMatches]

/-- C2 amended: the per-variant write of checkout is atomic but
unconditional — its filter matches only the product id and the variant's
size and color, with no stock floor — so whenever two quantities each
validate against the same read state but jointly exceed it, both
decrements are applied and the stored stock is driven below zero. -/
theorem c2_unconditional_decrement (s : Int) (q₁ q₂ : Nat)
    (h₁ : (q₁ : Int) ≤ s) (h₂ : (q₂ : Int) ≤ s) (h₃ : s < (q₁ : Int) + (q₂ : Int)) :
    validateItems (oneVariantDb s) (buyCart q₁) = .ok [buyItem q₁] ∧
    validateItems (oneVariantDb s) (buyCart q₂) = .ok [buyItem q₂] ∧
    ((decrementStock (buyItem q₂) (decrementStock (buyItem q₁) (oneVariantDb s))).map
        (fun p => p.variants.map Variant.stock)) = [[s - (q₁ : Int) - (q₂ : Int)]] ∧
    s - (q₁ : Int) - (q₂ : Int) < 0 := by
  refine ⟨?_, ?_, ?_, by omega⟩
  · simp [validateItems, oneVariantDb, buyCart, buyItem, findProduct, variantMatches,
      jsOr, not_lt.mpr h₁, Except.map]
  · simp [validateItems, oneVariantDb, buyCart, buyItem, findProduct, variantMatches,
      jsOr, not_lt.mpr h₂, Except.map]
  · simp [decrementStock, decFirstMatching, oneVariantDb, buyItem, variantMatches]

/-- C2 witness: the amended statement at stock 1 and two unit purchases. -/
theorem c2_unconditional_decrement_witness :
    ((decrementStock (buyItem 1) (decrementStock (buyItem 1) (oneVariantDb 1))).map
        (fun p => p.variants.map Variant.stock)) = [[(1 : Int) - 1 - 1]] ∧
    (1 : Int) - 1 - 1 < 0 :=
  ⟨(c2_unconditional_decrement 1 1 1 (by decide) (by decide) (by decide)).2.2.1,
   (c2_unconditional_decrement 1 1 1 (by decide) (by decide) (by decide)).2.2.2⟩

/-! C3: the `totalStock` invariant. -/

/-- C3 counterexample: the demo checkout decrements the variant's stock
from 55 to 53, but leaves the denormalized `totalStock` at 55, so after
this mutation `totalStock` differs from the sum of the variants' stock. -/
theorem c3_totalStock_counterexample :
    ((checkoutDbAfter demoDb demoCart .cod none).map
        (fun p => (p.totalStock, sumStocks p.variants))) = [(55, 53)] ∧
    (55 : Int) ≠ 53 := by
  refine ⟨?_, by decide⟩
  rw [checkoutDbAfter, demo_checkout]
  decide

/-- C3 amended: `totalStock` equals the sum of variant stocks after every
product save (the pre-save hook recomputes it), but the checkout stock
decrement is a direct update that bypasses the save hook and leaves every
product's `totalStock` unchanged while the variant stock drops. -/
theorem c3_totalStock_amended :
    (∀ p : Product, (productPreSave p).totalStock = sumStocks (productPreSave p).variants) ∧
    (∀ (item : OrderItem) (db : List Product),
      (decrementStock item db).map Product.totalStock = db.map Product.totalStock) := by
  constructor
  · intro p; rfl
  · intro item db
    induction db with
    | nil => rfl
    | cons p rest ih =>
      simp only [decrementStock]
      split
      · simp
      · simpa using ih

/-! C8: the order status machine. -/

/-- C8: a requested status outside the fixed enumeration is rejected with a
validation failure and leaves the order untouched; a status inside the
enumeration is applied from any current status, appending a history entry
whose status equals the new current status — in particular `shipped` is
accepted on an order currently `delivered`. -/
theorem c8_status_machine :
    (∀ (o : OrderStatusState) (s note : String), orderStatusEnum.contains s = false →
        updateStatusEndpoint o s note = .error "Validation failed" ∧
        statusEndpointState o s note = o) ∧
    (∀ (o : OrderStatusState) (s note : String), orderStatusEnum.contains s = true →
        updateStatusEndpoint o s note = .ok (updateStatus o s note) ∧
        (updateStatus o s note).status = s ∧
        (updateStatus o s note).statusHistory = o.statusHistory ++ [⟨s, note⟩] ∧
        ((updateStatus o s note).statusHistory.getLast?).map StatusEntry.status = some s) ∧
    updateStatusEndpoint ⟨"delivered", [⟨"delivered", ""⟩]⟩ "shipped" "" =
      .ok ⟨"shipped", [⟨"delivered", ""⟩, ⟨"shipped", ""⟩]⟩ := by
  refine ⟨fun o s note h => ?_, fun o s note h => ?_, by decide⟩
  · have h' : s ∉ orderStatusEnum := by simpa using h
    simp [updateStatusEndpoint, statusEndpointState, h']
  · have h' : s ∈ orderStatusEnum := by simpa using h
    simp [updateStatusEndpoint, updateStatus, h', List.getLast?_concat]

/-- C8 witness: a rejected transition to "bogus" and an accepted
delivered → shipped transition. -/
theorem c8_status_machine_witness :
    (updateStatusEndpoint ⟨"pending", []⟩ "bogus" "" = .error "Validation failed" ∧
     statusEndpointState ⟨"pending", []⟩ "bogus" "" = ⟨"pending", []⟩) ∧
    (updateStatusEndpoint ⟨"delivered", []⟩ "shipped" "n" =
        .ok (updateStatus ⟨"delivered", []⟩ "shipped" "n") ∧
     (updateStatus ⟨"delivered", []⟩ "shipped" "n").status = "shipped" ∧
     (updateStatus ⟨"delivered", []⟩ "shipped" "n").statusHistory = [] ++ [⟨"shipped", "n"⟩] ∧
     ((updateStatus ⟨"delivered", []⟩ "shipped" "n").statusHistory.getLast?).map
        StatusEntry.status = some "shipped") :=
  ⟨c8_status_machine.1 ⟨"pending", []⟩ "bogus" "" (by decide),
   c8_status_machine.2.1 ⟨"delivered", []⟩ "shipped" "n" (by decide)⟩

/-! C9: the payment status written at order creation. -/

/-- C9: every successfully created order has `paymentInfo.status` equal to
"pending" when the payment method is cash-on-delivery and "completed" for
every other method, with no payment processing in between. -/
theorem c9_payment_status (db : List Product) (cart : List CartItem) (method : PayMethod)
    (coupon : Option Coupon) (ord : Order) (db' : List Product)
    (h : checkout db cart method coupon = .ok (ord, db')) :
    (method = .cod → ord.paymentStatus = "pending") ∧
    (method ≠ .cod → ord.paymentStatus = "completed") := by
  obtain ⟨items, hv, hord, hdb⟩ := checkout_ok_inv h
  subst hord
  refine ⟨fun hm => ?_, fun hm => ?_⟩
  · simp [hm]
  · simp [hm]

/-- C9 witness: the demo checkout paid by cod is "pending", the same
checkout paid by paypal is "completed". -/
theorem c9_payment_status_witness :
    ((PayMethod.cod = PayMethod.cod → demoOrder.paymentStatus = "pending") ∧
     (PayMethod.cod ≠ PayMethod.cod → demoOrder.paymentStatus = "completed")) ∧
    ((PayMethod.paypal = PayMethod.cod →
        (Order.mk demoOrder.items .paypal "completed" demoOrder.pricing
          demoOrder.status).paymentStatus = "pending") ∧
     (PayMethod.paypal ≠ PayMethod.cod →
        (Order.mk demoOrder.items .paypal "completed" demoOrder.pricing
          demoOrder.status).paymentStatus = "completed")) :=
  ⟨c9_payment_status demoDb demoCart .cod none demoOrder demoDbAfter demo_checkout,
   c9_payment_status demoDb demoCart .paypal none
     (Order.mk demoOrder.items .paypal "completed" demoOrder.pricing demoOrder.status)
     demoDbAfter demo_checkout_paypal⟩

/-! C1: all-or-nothing checkout validation. -/

/-- A line that passes the validation loop has a found, active product, a
found variant, and enough stock. -/
theorem lineFailsB_false_inv {db : List Product} {ci : CartItem}
    (h : lineFailsB db ci = false) :
    ∃ p v, findProduct db ci.productId = some p ∧ p.isActive = true ∧
      p.variants.find? (variantMatches ci.size ci.color) = some v ∧
      ¬v.stock < (ci.quantity : Int) := by
  unfold lineFailsB at h
  split at h
  · exact Bool.noConfusion h
  · rename_i p hp
    split at h
    · exact Bool.noConfusion h
    · rename_i hact
      split at h
      · exact Bool.noConfusion h
      · rename_i v hv
        exact ⟨p, v, hp, by simpa using hact, hv, by simpa using h⟩

/-- A failing head line makes the validation loop return an error. -/
theorem validateItems_cons_error_of_fails {db : List Product} {ci : CartItem}
    {rest : List CartItem} (hf : lineFailsB db ci = true) :
    ∃ e, validateItems db (ci :: rest) = .error e := by
  cases hp : findProduct db ci.productId with
  | none => exact ⟨.productUnavailable, by simp [validateItems, hp]⟩
  | some p =>
    by_cases hact : p.isActive
    · cases hv : p.variants.find? (variantMatches ci.size ci.color) with
      | none => exact ⟨.insufficientStock, by simp [validateItems, hp, hact, hv]⟩
      | some v =>
        have hst : v.stock < (ci.quantity : Int) := by
          unfold lineFailsB at hf
          rw [hp] at hf
          simp only [hact, Bool.not_true, Bool.false_eq_true, if_false, hv] at hf
          simpa using hf
        exact ⟨.insufficientStock, by simp [validateItems, hp, hact, hv, hst]⟩
    · exact ⟨.productUnavailable, by simp [validateItems, hp, hact]⟩

/-- Any failing line makes the validation loop return an error. -/
theorem validateItems_error_of_lineFails {db : List Product} {cart : List CartItem}
    (h : ∃ ci ∈ cart, lineFailsB db ci = true) :
    ∃ e, validateItems db cart = .error e := by
  induction cart with
  | nil => simp at h
  | cons ci rest ih =>
    by_cases hf : lineFailsB db ci = true
    · exact validateItems_cons_error_of_fails hf
    · obtain ⟨cj, hcj, hfj⟩ := h
      rcases List.mem_cons.mp hcj with rfl | hmem
      · exact absurd hfj hf
      · obtain ⟨e, he⟩ := ih ⟨cj, hmem, hfj⟩
        obtain ⟨p, v, hp, hact, hv, hst⟩ := lineFailsB_false_inv (by simpa using hf)
        exact ⟨e, by simp [validateItems, hp, hact, hv, hst, he, Except.map]⟩

/-- The validation loop only ever fails with the product-unavailable or
insufficient-stock error. -/
theorem validateItems_error_types {db : List Product} {cart : List CartItem}
    {e : CheckoutErr} (h : validateItems db cart = .error e) :
    e = CheckoutErr.productUnavailable ∨ e = CheckoutErr.insufficientStock := by
  induction cart with
  | nil => exact Except.noConfusion h
  | cons ci rest ih =>
    unfold validateItems at h
    split at h
    · injection h with h
      exact .inl h.symm
    · split at h
      · injection h with h
        exact .inl h.symm
      · split at h
        · injection h with h
          exact .inr h.symm
        · split at h
          · injection h with h
            exact .inr h.symm
          · cases hrec : validateItems db rest with
            | ok items => rw [hrec] at h; exact Except.noConfusion h
            | error e' =>
              rw [hrec] at h
              injection h with h
              exact ih (h ▸ hrec)

/-- C1: a checkout over a non-empty cart holding any line whose product is
missing or inactive, whose variant is missing, or whose requested quantity
exceeds the variant's stock fails entirely with the product-unavailable or
insufficient-stock error; no order is produced and the product collection
— in particular every stock value — is untouched. -/
theorem c1_checkout_all_or_nothing (db : List Product) (cart : List CartItem)
    (method : PayMethod) (coupon : Option Coupon)
    (hne : cart ≠ [])
    (hfail : ∃ ci ∈ cart, lineFailsB db ci = true) :
    (checkout db cart method coupon = .error .productUnavailable ∨
     checkout db cart method coupon = .error .insufficientStock) ∧
    checkoutDbAfter db cart method coupon = db ∧
    checkoutOrderOf db cart method coupon = none := by
  obtain ⟨e, he⟩ := validateItems_error_of_lineFails hfail
  have hck : checkout db cart method coupon = .error e := by
    unfold checkout
    rw [if_neg (by simpa [List.isEmpty_iff] using hne), he]
  refine ⟨?_, ?_, ?_⟩
  · rcases validateItems_error_types he with h | h
    · exact .inl (h ▸ hck)
    · exact .inr (h ▸ hck)
  · unfold checkoutDbAfter
    rw [hck]
  · unfold checkoutOrderOf
    rw [hck]

/-- C1 witness: a cart requesting 2 units of a variant with stock 1 leaves
the collection unchanged and yields no order. -/
theorem c1_checkout_all_or_nothing_witness :
    (checkout (oneVariantDb 1) (buyCart 2) .cod none = .error .productUnavailable ∨
     checkout (oneVariantDb 1) (buyCart 2) .cod none = .error .insufficientStock) ∧
    checkoutDbAfter (oneVariantDb 1) (buyCart 2) .cod none = oneVariantDb 1 ∧
    checkoutOrderOf (oneVariantDb 1) (buyCart 2) .cod none = none :=
  c1_checkout_all_or_nothing (oneVariantDb 1) (buyCart 2) .cod none
    (by decide) (by decide)

/-! C4: the pricing formulas. -/

/-- Every order line built by the validation loop totals its unit price
times its quantity. -/
theorem validateItems_item_total {db : List Product} {cart : List CartItem}
    {items : List OrderItem} (h : validateItems db cart = .ok items) :
    ∀ it ∈ items, it.total = it.price * (it.quantity : ℚ) := by
  induction cart generalizing items with
  | nil =>
    unfold validateItems at h
    injection h with h
    subst h
    intro it hit
    cases hit
  | cons ci rest ih =>
    unfold validateItems at h
    split at h
    · exact Except.noConfusion h
    · split at h
      · exact Except.noConfusion h
      · split at h
        · exact Except.noConfusion h
        · split at h
          · exact Except.noConfusion h
          · cases hrec : validateItems db rest with
            | error e => rw [hrec] at h; exact Except.noConfusion h
            | ok items' =>
              rw [hrec] at h
              injection h with h
              subst h
              intro it hit
              rcases List.mem_cons.mp hit with rfl | hmem
              · rfl
              · exact ih hrec it hmem

/-- C4 counterexample: on a cart view whose subtotal S is 0.015 — a price
with a fractional cent — the response's tax is round2(S × 0.1) and its
shipping is 10 as claimed, but its total is round2(S + S × 0.1 + 10) =
10.02, not subtotal + tax + shipping − discount = 10.015: the view rounds
the total once at display over the unrounded tax. -/
theorem c4_view_total_counterexample :
    viewRawSubtotal centDb centCart = 3/200 ∧
    (viewCart centDb centCart).tax = round2 ((3/200) * (1/10)) ∧
    (viewCart centDb centCart).shipping = 10 ∧
    (viewCart centDb centCart).total = 1002/100 ∧
    (viewCart centDb centCart).total ≠ 3/200 + round2 ((3/200) * (1/10)) + 10 - 0 := by
  have hs : viewRawSubtotal centDb centCart = 3/200 := by
    simp [viewRawSubtotal, resolveCart, resolveLine, centDb, centCart, findProduct,
      valuateItem, variantMatches, jsOr]
  refine ⟨hs, ?_, ?_, ?_, ?_⟩
  · show round2 (viewRawSubtotal centDb centCart * (1/10)) = _
    rw [hs]
  · show round2 (if viewRawSubtotal centDb centCart > 100 then (0:ℚ) else 10) = 10
    rw [hs]
    norm_num [round2, round_eq]
  · show round2 (viewRawSubtotal centDb centCart + viewRawSubtotal centDb centCart * (1/10) +
      (if viewRawSubtotal centDb centCart > 100 then (0:ℚ) else 10)) = 1002/100
    rw [hs]
    norm_num [round2, round_eq]
  · show round2 (viewRawSubtotal centDb centCart + viewRawSubtotal centDb centCart * (1/10) +
      (if viewRawSubtotal centDb centCart > 100 then (0:ℚ) else 10)) ≠ _
    rw [hs]
    norm_num [round2, round_eq]

/-- C4 amended: at checkout the stored pricing satisfies the claim exactly
— the subtotal is the sum over the items of unit price times quantity, tax
= round2(subtotal × 0.1), shipping is 0 when the subtotal exceeds 100 and
10 otherwise, and total = subtotal + tax + shipping − discount with no
further rounding.  The cart view's response satisfies the tax and shipping
formulas, but its displayed total is round2 of (subtotal + unrounded tax +
shipping), which matches subtotal + tax + shipping only for subtotals that
are a whole number of cents. -/
theorem c4_pricing (db : List Product) (cart : List CartItem) (method : PayMethod)
    (coupon : Option Coupon) (ord : Order) (db' : List Product)
    (h : checkout db cart method coupon = .ok (ord, db')) :
    (ord.pricing.subtotal = (ord.items.map OrderItem.total).sum ∧
     (∀ it ∈ ord.items, it.total = it.price * (it.quantity : ℚ)) ∧
     ord.pricing.tax = round2 (ord.pricing.subtotal * (1/10)) ∧
     ord.pricing.shipping = (if ord.pricing.subtotal > 100 then 0 else 10) ∧
     ord.pricing.total = ord.pricing.subtotal + ord.pricing.tax + ord.pricing.shipping
        - ord.pricing.discount) ∧
    (∀ (vdb : List Product) (vcart : List CartItem),
      (viewCart vdb vcart).tax = round2 (viewRawSubtotal vdb vcart * (1/10)) ∧
      (viewCart vdb vcart).shipping =
        (if viewRawSubtotal vdb vcart > 100 then 0 else 10) ∧
      (viewCart vdb vcart).total =
        round2 (viewRawSubtotal vdb vcart + viewRawSubtotal vdb vcart * (1/10) +
          (if viewRawSubtotal vdb vcart > 100 then (0:ℚ) else 10))) := by
  constructor
  · obtain ⟨items, hv, hord, -⟩ := checkout_ok_inv h
    subst hord
    refine ⟨rfl, validateItems_item_total hv, rfl, rfl, rfl⟩
  · intro vdb vcart
    refine ⟨rfl, ?_, rfl⟩
    show round2 (if viewRawSubtotal vdb vcart > 100 then (0:ℚ) else 10) = _
    split <;> norm_num [round2, round_eq]

/-- C4 witness: the demo checkout's stored pricing satisfies every formula
(subtotal 59.98, tax 6.00, shipping 10, total 75.98), and the demo view
formulas hold at the demo collection. -/
theorem c4_pricing_witness :
    (demoOrder.pricing.subtotal = (demoOrder.items.map OrderItem.total).sum ∧
     (∀ it ∈ demoOrder.items, it.total = it.price * (it.quantity : ℚ)) ∧
     demoOrder.pricing.tax = round2 (demoOrder.pricing.subtotal * (1/10)) ∧
     demoOrder.pricing.shipping = (if demoOrder.pricing.subtotal > 100 then 0 else 10) ∧
     demoOrder.pricing.total = demoOrder.pricing.subtotal + demoOrder.pricing.tax +
        demoOrder.pricing.shipping - demoOrder.pricing.discount) ∧
    (∀ (vdb : List Product) (vcart : List CartItem),
      (viewCart vdb vcart).tax = round2 (viewRawSubtotal vdb vcart * (1/10)) ∧
      (viewCart vdb vcart).shipping =
        (if viewRawSubtotal vdb vcart > 100 then 0 else 10) ∧
      (viewCart vdb vcart).total =
        round2 (viewRawSubtotal vdb vcart + viewRawSubtotal vdb vcart * (1/10) +
          (if viewRawSubtotal vdb vcart > 100 then (0:ℚ) else 10))) :=
  c4_pricing demoDb demoCart .cod none demoOrder demoDbAfter demo_checkout

end Shop
